import Mathlib

/-!
Verification of the `CfninitStack` infrastructure declaration
(`src/lib/cfninit-stack.ts`).

The stack is a one-shot declarative construction: it wires together a VPC,
a security group, an auto-scaling group with a CloudFormation-init bootstrap
recipe and rollout signals, and a three-stage CodePipeline.  We embed the
constructed object graph as plain Lean data.  Two synthesis-time inputs are
made explicit parameters so that frame and noninterference properties can be
stated: the list of yum packages of the bootstrap recipe (the source fixes it
to `["nginx"]`), and the secret store consulted by the platform (the source
only ever builds a by-name reference into the template, never a value).
-/

namespace Cfninit

/-- Subnet tiers of `aws-ec2` used by the stack. -/
inductive SubnetType
  | PUBLIC
  | PRIVATE_WITH_EGRESS
  | PRIVATE_ISOLATED
deriving DecidableEq, Repr

/-- One entry of a VPC's `subnetConfiguration` list. -/
structure SubnetConfiguration where
  cidrMask : Nat
  name : String
  subnetType : SubnetType
deriving DecidableEq, Repr

/-- The VPC declaration (`new Vpc(this, "VPC", {...})`). -/
structure VpcProps where
  vpcName : String
  cidr : String
  maxAzs : Nat
  natGateways : Nat
  subnetConfiguration : List SubnetConfiguration
deriving DecidableEq, Repr

/-- An ingress peer: `Peer.anyIpv4()` or `Peer.ipv4(cidr)`. -/
inductive Peer
  | anyIpv4
  | ipv4 (cidr : String)
deriving DecidableEq, Repr

/-- The IPv4 range a peer denotes in the synthesized template;
`Peer.anyIpv4()` renders as the unrestricted range. -/
def Peer.toCidr : Peer → String
  | .anyIpv4 => "0.0.0.0/0"
  | .ipv4 c => c

/-- A connection port (`Port.tcp(n)`). -/
structure Port where
  protocol : String
  portNumber : Nat
deriving DecidableEq, Repr

/-- `Port.tcp(n)`. -/
def Port.tcp (n : Nat) : Port :=
  ⟨"tcp", n⟩

/-- One `addIngressRule(peer, port, description)` call. -/
structure IngressRule where
  peer : Peer
  port : Port
  description : String
deriving DecidableEq, Repr

/-- The security group declaration (`new SecurityGroup(this, "SecurityGroup", {...})`)
together with the ingress rules added to it. -/
structure SecurityGroupModel where
  securityGroupName : String
  allowAllOutbound : Bool
  ingressRules : List IngressRule
deriving DecidableEq, Repr

/-- One element of a `CloudFormationInit.fromElements(...)` recipe. -/
inductive InitElement
  | initPackage (packageManager : String) (packageName : String)
  | initCommand (shellCommand : String)
  | initFile (targetFileName : String) (assetPath : String)
  | initService (serviceName : String) (enabled : Bool) (hasRestartHandle : Bool)
deriving DecidableEq, Repr

/-- `InitPackage.yum(name)`. -/
def InitPackage.yum (name : String) : InitElement :=
  .initPackage "yum" name

/-- `InitCommand.shellCommand(cmd)`. -/
def InitCommand.shellCommand (cmd : String) : InitElement :=
  .initCommand cmd

/-- `InitFile.fromAsset(targetFileName, path)`. -/
def InitFile.fromAsset (targetFileName : String) (path : String) : InitElement :=
  .initFile targetFileName path

/-- `InitService.enable(name, { serviceRestartHandle })`: the service is
enabled, and the restart handle makes the platform restart it after the
earlier recipe steps ran. -/
def InitService.enable (name : String) (hasRestartHandle : Bool) : InitElement :=
  .initService name true hasRestartHandle

/-- A time span (`Duration.minutes(n)` stores `n * 60` seconds). -/
structure Duration where
  seconds : Nat
deriving DecidableEq, Repr

/-- `Duration.minutes(n)`. -/
def Duration.minutes (n : Nat) : Duration :=
  ⟨n * 60⟩

/-- Options record of `Signals.waitForCount`. -/
structure SignalsOptions where
  minSuccessPercentage : Nat
  timeout : Duration
deriving DecidableEq, Repr

/-- The rollout-health signal configuration of the auto-scaling group. -/
structure SignalsModel where
  count : Nat
  minSuccessPercentage : Nat
  timeout : Duration
deriving DecidableEq, Repr

/-- `Signals.waitForCount(count, options)`. -/
def Signals.waitForCount (count : Nat) (options : SignalsOptions) : SignalsModel :=
  ⟨count, options.minSuccessPercentage, options.timeout⟩

/-- An IAM role declaration (principals it can be assumed by, attached
managed policies). -/
structure RoleModel where
  assumedBy : List String
  managedPolicies : List String
deriving DecidableEq, Repr

/-- The auto-scaling group declaration
(`new AutoScalingGroup(this, "AutoScalingGroup", {...})`).  `constructId` is
the CDK construct id; the synthesized template refers to the group through it. -/
structure AutoScalingGroupModel where
  constructId : String
  instanceType : String
  machineImageGeneration : String
  instanceRole : RoleModel
  keyPairName : String
  securityGroupName : String
  vpcSubnetType : SubnetType
  init : List InitElement
  signals : SignalsModel
deriving DecidableEq, Repr

/-- A CDK `SecretValue`: either a literal plaintext or an unresolved
by-name reference into the platform's secret store.  `secretsManager`
builds only the reference; it never consults the store at synthesis time. -/
inductive SecretValue
  | plainText (value : String)
  | secretsManagerRef (secretId : String)
deriving DecidableEq, Repr

/-- `SecretValue.secretsManager(secretId)`. -/
def SecretValue.secretsManager (secretId : String) : SecretValue :=
  .secretsManagerRef secretId

/-- Resolution of a secret value by the orchestrating platform at
pipeline-execution time, against the secret store `store`. -/
def SecretValue.resolve (store : String → String) : SecretValue → String
  | .plainText v => v
  | .secretsManagerRef id => store id

/-- The `buildSpec` of the CodeBuild project. -/
structure BuildSpecModel where
  version : String
  installRuntimeVersions : List (String × String)
  installCommands : List String
  buildCommands : List String
  artifactBaseDirectory : String
  artifactFiles : List String
deriving DecidableEq, Repr

/-- A CodeDeploy server deployment group; the synthesized template holds
references (construct ids) to its auto-scaling groups. -/
structure ServerDeploymentGroupModel where
  autoScalingGroups : List String
deriving DecidableEq, Repr

/-- One pipeline action, as declared in the stack's three stages. -/
inductive PipelineAction
  | gitHubSource (actionName : String) (owner : String) (repo : String)
      (branch : String) (oauthToken : SecretValue) (output : String)
  | codeBuild (actionName : String) (buildImage : String)
      (buildSpec : BuildSpecModel) (input : String) (outputs : List String)
  | codeDeployServerDeploy (actionName : String) (input : String)
      (deploymentGroup : ServerDeploymentGroupModel)
deriving DecidableEq, Repr

/-- Names of the artifacts an action consumes. -/
def PipelineAction.inputArtifacts : PipelineAction → List String
  | .gitHubSource _ _ _ _ _ _ => []
  | .codeBuild _ _ _ input _ => [input]
  | .codeDeployServerDeploy _ input _ => [input]

/-- Names of the artifacts an action produces. -/
def PipelineAction.outputArtifacts : PipelineAction → List String
  | .gitHubSource _ _ _ _ _ output => [output]
  | .codeBuild _ _ _ _ outputs => outputs
  | .codeDeployServerDeploy _ _ _ => []

/-- The auto-scaling-group references targeted by an action (empty for
non-deploy actions). -/
def PipelineAction.deploymentTargets : PipelineAction → List String
  | .codeDeployServerDeploy _ _ dg => dg.autoScalingGroups
  | _ => []

/-- The OAuth token of a source action, when the action is one. -/
def PipelineAction.sourceOauthToken : PipelineAction → Option SecretValue
  | .gitHubSource _ _ _ _ tok _ => some tok
  | _ => none

/-- One entry of the pipeline's `stages` list. -/
structure StageProps where
  stageName : String
  actions : List PipelineAction
deriving DecidableEq, Repr

/-- Removal policies of `aws-cdk-lib`. -/
inductive RemovalPolicy
  | DESTROY
  | RETAIN
deriving DecidableEq, Repr

/-- The artifact bucket declaration (`new Bucket(this, "ArtifactBucket", {...})`). -/
structure BucketModel where
  removalPolicy : RemovalPolicy
deriving DecidableEq, Repr

/-- The pipeline declaration (`new Pipeline(this, "Pipeline", {...})`). -/
structure PipelineModel where
  pipelineName : String
  role : RoleModel
  artifactBucket : BucketModel
  stages : List StageProps
deriving DecidableEq, Repr

/-- The whole object graph constructed by `CfninitStack`'s constructor. -/
structure CfninitStackModel where
  vpc : VpcProps
  securityGroup : SecurityGroupModel
  autoScalingGroup : AutoScalingGroupModel
  pipeline : PipelineModel
deriving DecidableEq, Repr

/-- The fixed tail of the bootstrap recipe after the yum package installs:
the shell command, the file placement and the service enablement, exactly as
listed in `CloudFormationInit.fromElements`. -/
def bootstrapRecipeTail : List InitElement :=
  [ InitCommand.shellCommand
      "sudo yum install php php-fpm php-xml php-mbstring php-zip php-bcmath php-tokenizer ruby wget sqlite -y",
    InitFile.fromAsset "/etc/nginx/conf.d/laravel.conf" "cfninit/laravel.conf",
    InitService.enable "nginx" true ]

/-- The `CfninitStack` constructor, transcribed from
`src/lib/cfninit-stack.ts`.  `yumPackages` generalizes the recipe's package
list (the source passes `["nginx"]`); `secretStore` is the platform secret
store, which synthesis never reads — `SecretValue.secretsManager` only embeds
a by-name reference. -/
def cfninitStackWith (yumPackages : List String) (secretStore : String → String) :
    CfninitStackModel :=
  let vpc : VpcProps :=
    { vpcName := "cfninit-vpc"
      cidr := "10.0.0.0/16"
      maxAzs := 1
      natGateways := 1
      subnetConfiguration :=
        [ { cidrMask := 24, name := "Public", subnetType := .PUBLIC } ] }
  let securityGroup : SecurityGroupModel :=
    { securityGroupName := "cfninit-sg"
      allowAllOutbound := true
      ingressRules :=
        [ { peer := .anyIpv4, port := Port.tcp 443, description := "allow https access" },
          { peer := .anyIpv4, port := Port.tcp 80, description := "allow http access" },
          { peer := .ipv4 "0.0.0.0/0", port := Port.tcp 22, description := "allow ssh access" } ] }
  let autoScalingGroup : AutoScalingGroupModel :=
    { constructId := "AutoScalingGroup"
      instanceType := "t2.micro"
      machineImageGeneration := "AMAZON_LINUX_2023"
      instanceRole :=
        { assumedBy := ["ec2.amazonaws.com"]
          managedPolicies := ["AmazonSSMManagedInstanceCore"] }
      keyPairName := "CfnInitKeyPair"
      securityGroupName := securityGroup.securityGroupName
      vpcSubnetType := .PUBLIC
      init := yumPackages.map InitPackage.yum ++ bootstrapRecipeTail
      signals :=
        Signals.waitForCount 1
          { minSuccessPercentage := 80, timeout := Duration.minutes 5 } }
  let sourceArtifact := "SourceArtifact"
  let buildArtifact := "BuildArtifact"
  let buildSpec : BuildSpecModel :=
    { version := "0.2"
      installRuntimeVersions := [("nodejs", "20.x"), ("php", "8.3")]
      installCommands :=
        [ "npm install",
          "curl -sS https://getcomposer.org/installer | php",
          "php composer.phar install --no-dev --optimize-autoloader" ]
      buildCommands := ["npm run build"]
      artifactBaseDirectory := "./"
      artifactFiles := ["**/*"] }
  let pipeline : PipelineModel :=
    { pipelineName := "Laravel-pipeline"
      role :=
        { assumedBy := ["codebuild.amazonaws.com", "codepipeline.amazonaws.com"]
          managedPolicies := [] }
      artifactBucket := { removalPolicy := .DESTROY }
      stages :=
        [ { stageName := "Source"
            actions :=
              [ .gitHubSource "Source" "RizaHKhan" "laravel-app-for-cdk" "master"
                  (SecretValue.secretsManager "github-token") sourceArtifact ] },
          { stageName := "Build"
            actions :=
              [ .codeBuild "Build" "AMAZON_LINUX_2_5" buildSpec sourceArtifact
                  [buildArtifact] ] },
          { stageName := "Deploy"
            actions :=
              [ .codeDeployServerDeploy "DeployToEc2" buildArtifact
                  { autoScalingGroups := [autoScalingGroup.constructId] } ] } ] }
  { vpc := vpc
    securityGroup := securityGroup
    autoScalingGroup := autoScalingGroup
    pipeline := pipeline }

/-- The stack exactly as the source constructs it: yum package list
`["nginx"]`; the secret store is irrelevant to synthesis. -/
def cfninitStack : CfninitStackModel :=
  cfninitStackWith ["nginx"] (fun _ => "")

/-- Modelled from the spec: the rollout-failure judgement is owned by the
platform's signaling protocol, which is not part of this repository; per the
spec, pool creation is considered failed exactly when the minimum success
quorum is not met before the timeout elapses. -/
def poolCreationFailed (s : SignalsModel) (successPercentBeforeTimeout : Nat) : Bool :=
  decide (successPercentBeforeTimeout < s.minSuccessPercentage)

/-- C1: the pipeline built by `CfninitStack` has exactly three stages, in the
order Source, Build, Deploy, and the Deploy stage's single action targets a
deployment group whose auto-scaling-group list is exactly the reference to the
compute pool (`AutoScalingGroup`) declared earlier in the same stack. -/
theorem pipeline_stages_and_deploy_target :
    cfninitStack.pipeline.stages.map (fun s => s.stageName) = ["Source", "Build", "Deploy"] ∧
    (cfninitStack.pipeline.stages.get? 2).map
        (fun s => s.actions.map PipelineAction.deploymentTargets) =
      some [[cfninitStack.autoScalingGroup.constructId]] := by
  constructor <;> rfl

/-- C2: the security group has exactly three ingress rules, for ports 443, 80
and 22, every one of them sourced from the unrestricted IPv4 range
`0.0.0.0/0`, and outbound traffic is unrestricted. -/
theorem security_group_ingress_rules :
    cfninitStack.securityGroup.ingressRules.map (fun r => (r.peer.toCidr, r.port)) =
      [("0.0.0.0/0", Port.tcp 443), ("0.0.0.0/0", Port.tcp 80), ("0.0.0.0/0", Port.tcp 22)] ∧
    cfninitStack.securityGroup.allowAllOutbound = true := by
  constructor <;> rfl

/-- C3: the auto-scaling group's signal configuration declares a minimum
success percentage of exactly 80 and a timeout of exactly 5 minutes, and —
under the spec-modelled platform judgement — pool creation is considered
failed exactly when the quorum is not met before the timeout. -/
theorem asg_signals_quorum_and_timeout :
    cfninitStack.autoScalingGroup.signals.minSuccessPercentage = 80 ∧
    cfninitStack.autoScalingGroup.signals.timeout = Duration.minutes 5 ∧
    ∀ p : Nat,
      poolCreationFailed cfninitStack.autoScalingGroup.signals p = true ↔ p < 80 := by
  refine ⟨rfl, rfl, fun p => ?_⟩
  simp [poolCreationFailed, cfninitStack, cfninitStackWith, Signals.waitForCount]

/-- C4: the stack declares exactly one VPC, whose subnet configuration is a
single public-tier entry, with a single availability-zone replica and one
NAT gateway. -/
theorem vpc_single_public_subnet_tier :
    cfninitStack.vpc.subnetConfiguration.map (fun c => c.subnetType) = [SubnetType.PUBLIC] ∧
    cfninitStack.vpc.maxAzs = 1 ∧
    cfninitStack.vpc.natGateways = 1 := by
  refine ⟨rfl, rfl, rfl⟩

/-- C5: exactly one artifact flows through each hand-off of the pipeline: in
stage order Source, Build, Deploy, the Source stage's single action outputs
`SourceArtifact` and consumes nothing, the Build stage's single action
consumes `SourceArtifact` and outputs `BuildArtifact`, and the Deploy stage's
single action consumes `BuildArtifact`. -/
theorem artifact_flow_source_build_deploy :
    cfninitStack.pipeline.stages.map
        (fun s => (s.stageName,
          s.actions.map (fun a => (a.inputArtifacts, a.outputArtifacts)))) =
      [ ("Source", [([], ["SourceArtifact"])]),
        ("Build", [(["SourceArtifact"], ["BuildArtifact"])]),
        ("Deploy", [(["BuildArtifact"], ([] : List String))]) ] := by
  rfl

/-- C6: for any two bootstrap-recipe package lists (and any secret store),
the two synthesized stacks agree on the network section, the security group
and the whole pipeline section, and their compute pools differ at most in the
embedded bootstrap payload (overwriting the first pool's `init` with the
second's makes the pools equal). -/
theorem bootstrap_packages_frame (p1 p2 : List String) (store : String → String) :
    (cfninitStackWith p1 store).vpc = (cfninitStackWith p2 store).vpc ∧
    (cfninitStackWith p1 store).securityGroup = (cfninitStackWith p2 store).securityGroup ∧
    (cfninitStackWith p1 store).pipeline = (cfninitStackWith p2 store).pipeline ∧
    { (cfninitStackWith p1 store).autoScalingGroup with
        init := (cfninitStackWith p2 store).autoScalingGroup.init } =
      (cfninitStackWith p2 store).autoScalingGroup := by
  refine ⟨rfl, rfl, rfl, rfl⟩

/-- C7: the bootstrap recipe is the ordered four-step sequence: install the
`nginx` package, run the shell command, place the `laravel.conf` file, then
enable (with a restart handle) the `nginx` service; in particular the
package-install step precedes the service-enable step. -/
theorem bootstrap_recipe_steps :
    cfninitStack.autoScalingGroup.init =
      [ InitPackage.yum "nginx",
        InitCommand.shellCommand
          "sudo yum install php php-fpm php-xml php-mbstring php-zip php-bcmath php-tokenizer ruby wget sqlite -y",
        InitFile.fromAsset "/etc/nginx/conf.d/laravel.conf" "cfninit/laravel.conf",
        InitService.enable "nginx" true ] ∧
    ∃ i j, i < j ∧
      cfninitStack.autoScalingGroup.init.get? i = some (InitPackage.yum "nginx") ∧
      cfninitStack.autoScalingGroup.init.get? j = some (InitService.enable "nginx" true) := by
  refine ⟨rfl, 0, 3, by decide, rfl, rfl⟩

/-- C8: the version-control access token enters the stack only as a by-name
Secrets Manager reference (`github-token`): the source action's token is the
unresolved reference, the synthesized stack is identical under any two secret
stores (the output does not depend on the secret's value), and the reference
only yields the token when the platform resolves it against a store at
pipeline-execution time. -/
theorem oauth_token_is_external_reference :
    ((cfninitStack.pipeline.stages.get? 0).map
        (fun s => s.actions.map PipelineAction.sourceOauthToken) =
      some [some (SecretValue.secretsManagerRef "github-token")]) ∧
    (∀ (p : List String) (store1 store2 : String → String),
      cfninitStackWith p store1 = cfninitStackWith p store2) ∧
    (∀ store : String → String,
      (SecretValue.secretsManagerRef "github-token").resolve store = store "github-token") := by
  exact ⟨rfl, fun _ _ _ => rfl, fun _ => rfl⟩

/-- C9: the rollout-health condition waits for a success-signal count of
exactly 1, so the 80% minimum-success-percentage quorum is declared over a
required signal count of one instance. -/
theorem signals_wait_for_count_one :
    cfninitStack.autoScalingGroup.signals.count = 1 ∧
    cfninitStack.autoScalingGroup.signals.minSuccessPercentage = 80 := by
  constructor <;> rfl

/-- C10: the pipeline's artifact bucket is declared with the DESTROY removal
policy, so it is deleted with the stack rather than retained. -/
theorem artifact_bucket_removal_policy :
    cfninitStack.pipeline.artifactBucket.removalPolicy = RemovalPolicy.DESTROY := by
  rfl

end Cfninit
